import Mathlib

/-!
Shallow embedding of `src/temperature_data/normalize_temps.py`.

Temperatures are modelled as rationals (`ℚ`); Python `float` readings in the
repository are plain decimal sensor values, and every rounding step of the
source is reproduced exactly on `ℚ` (Python `round` rounds half to even).
Hour keys are zero-padded strings `"00"`–`"23"` in the source so that
lexicographic order coincides with numeric order; we model them as `Nat`
sorted numerically, which yields the same iteration order.
-/

namespace NormalizeTemps

/-- Python `round(x, n)` rounds half to even ("banker's rounding").
`pyRound q` is `round(q)` for a rational `q`. -/
def pyRound (q : ℚ) : ℤ :=
  let f := ⌊q⌋
  if q - f < 1 / 2 then f
  else if q - f > 1 / 2 then f + 1
  else if f % 2 = 0 then f else f + 1

/-- Python `round(x, 2)`: round to 2 decimal places, half to even. -/
def round2 (q : ℚ) : ℚ := (pyRound (q * 100) : ℚ) / 100

/-- Python `statistics.mean` of a list of rationals (only ever applied to
non-empty lists in the source). -/
def mean (l : List ℚ) : ℚ := l.sum / l.length

/-- Python `max` of a list (only ever applied to non-empty lists in the
source; the `[]` case is an arbitrary default). -/
def listMax : List ℚ → ℚ
  | [] => 0
  | x :: xs => xs.foldl max x

/-- Source line 39: `HABITABLE_TEMP = 68`. -/
def HABITABLE_TEMP : ℚ := 68

/-- Source line 40: the SF heat-ordinance mandated hours. -/
def HABITABLE_HEAT_HOURS : List Nat := [5, 6, 7, 8, 9, 10, 11, 15, 16, 17, 18, 19, 20]

/-- Source line 44: `INDOOR_OUTDOOR_DELTA = 10`. -/
def INDOOR_OUTDOOR_DELTA : ℚ := 10

/-- Source lines 48-49: membership in the mandated-hour set. -/
def is_heat_required (hour : Nat) : Bool :=
  decide (hour ∈ HABITABLE_HEAT_HOURS)

/-- Source lines 54-55: `temp >= HABITABLE_TEMP`. -/
def is_habitable_temp (temp : ℚ) : Bool :=
  decide (temp ≥ HABITABLE_TEMP)

/-- Source lines 12-19: per-hour statistics record, with the dataclass
default values. -/
structure HourStats where
  indoor_temps : List ℚ := []
  outdoor_temps : List ℚ := []
  avg_indoor_temp : ℚ := 0
  max_indoor_temp : ℚ := 0
  avg_outdoor_temp : ℚ := 0
  is_habitable_hour : Bool := false
deriving Repr, DecidableEq

/-- Source lines 23-31: per-date statistics record.  The source keys the
`hours` dict by the zero-padded hour string; we key by the hour number
(numeric sort order = the source's lexicographic sort order). -/
structure DateStats where
  hours : List (Nat × HourStats) := []
  avg_indoor_temp : ℚ := 0
  max_indoor_temp : ℚ := 0
  avg_outdoor_temp : ℚ := 0
  adequate_hour_count : Nat := 0
  inadequate_hour_count : Nat := 0
  majority_adequate : Bool := true
deriving Repr, DecidableEq

/-- Result of running the body of the inner hours loop of
`calculate_temp_data` (source lines 117-150) on one hour bucket:
the mutated `HourStats`, the updated `daily_max_indoor_temp`, whether an
adequate (`some true`) or inadequate (`some false`) mandated hour was
counted (`none`: no counter was incremented), and whether the
"no indoor temperature data" skip path ran. -/
structure HourOutcome where
  stats : HourStats
  dailyMax : ℚ
  verdict : Option Bool
  skipped : Bool
deriving Repr, DecidableEq

/-- Source lines 143-150: set `is_habitable_hour` and, for mandated hours,
test the (possibly defaulted or extrapolated) `avg_indoor_temp` against the
habitability threshold; the counter increments are reported through
`verdict`. -/
def assignVerdict (hour : Nat) (hs : HourStats) (dm : ℚ) : HourOutcome :=
  let hs2 := { hs with is_habitable_hour := is_heat_required hour }
  { stats := hs2
    dailyMax := dm
    verdict := if hs2.is_habitable_hour then some (is_habitable_temp hs2.avg_indoor_temp) else none
    skipped := false }

/-- Source lines 117-150, body of the inner loop of `calculate_temp_data`
for one `(hour, hour_stats)` pair.  Mirrors the control flow exactly:
the indoor-average (and extrapolation) logic is guarded by
`if hour_stats.outdoor_temps:`; the `continue` on line 141 skips the
verdict assignment; an hour whose `outdoor_temps` is empty falls through
to the verdict test with its fields untouched. -/
def stepHour (extrapolate : Bool) (hour : Nat) (hs : HourStats) (dailyMax : ℚ) : HourOutcome :=
  if hs.outdoor_temps ≠ [] then
    let hs1 := { hs with avg_outdoor_temp := round2 (mean hs.outdoor_temps) }
    if hs.indoor_temps ≠ [] then
      let hs2 := { hs1 with
        avg_indoor_temp := round2 (mean hs.indoor_temps)
        max_indoor_temp := round2 (listMax hs.indoor_temps) }
      assignVerdict hour hs2 (max dailyMax hs2.max_indoor_temp)
    else if extrapolate then
      let hs2 := { hs1 with avg_indoor_temp := hs1.avg_outdoor_temp + INDOOR_OUTDOOR_DELTA }
      assignVerdict hour hs2 (max dailyMax hs2.avg_indoor_temp)
    else
      { stats := hs1, dailyMax := dailyMax, verdict := none, skipped := true }
  else
    assignVerdict hour hs dailyMax

/-- Source line 140: the diagnostic printed when an hour with outdoor data
but no indoor data is skipped (extrapolation disabled). -/
def skipDiagnostic (date : String) (hour : Nat) : String :=
  s!"no indoor temperature data for {date} {hour}, skipping"

/-- Accumulator threaded through the inner hours loop: running daily max,
the two per-date counters, the skip diagnostics printed so far, and the
mutated hour buckets. -/
structure DayAcc where
  dailyMax : ℚ
  adequate : Nat
  inadequate : Nat
  skipped : List String
  hoursOut : List (Nat × HourStats)
deriving Repr, DecidableEq

/-- One iteration of the inner hours loop at day level: run `stepHour` and
fold its outcome into the accumulator. -/
def stepDay (extrapolate : Bool) (date : String) (acc : DayAcc) (kv : Nat × HourStats) : DayAcc :=
  let o := stepHour extrapolate kv.1 kv.2 acc.dailyMax
  { dailyMax := o.dailyMax
    adequate := acc.adequate + (if o.verdict = some true then 1 else 0)
    inadequate := acc.inadequate + (if o.verdict = some false then 1 else 0)
    skipped := acc.skipped ++ (if o.skipped then [skipDiagnostic date kv.1] else [])
    hoursOut := acc.hoursOut ++ [(kv.1, o.stats)] }

/-- Source line 117: `sorted(date_stats.hours.items())`.  Hour keys are
zero-padded in the source precisely so that this lexicographic sort is the
numeric sort modelled here. -/
def sortHours (l : List (Nat × HourStats)) : List (Nat × HourStats) :=
  l.insertionSort (fun a b => a.1 ≤ b.1)

/-- Fold of the inner hours loop over a list of hour buckets. -/
def processDay (extrapolate : Bool) (date : String) (l : List (Nat × HourStats)) (acc : DayAcc) :
    DayAcc :=
  l.foldl (stepDay extrapolate date) acc

/-- Source lines 115-157, body of the outer dates loop of
`calculate_temp_data` for one date: seed `daily_max_indoor_temp = 0`,
run the hours loop over the hour buckets in sorted order, then store
`max_indoor_temp` and `majority_adequate`.  Returns the finalized
`DateStats` together with the skip diagnostics printed for this date. -/
def finalizeDate (extrapolate : Bool) (date : String) (ds : DateStats) : DateStats × List String :=
  let acc := processDay extrapolate date (sortHours ds.hours)
    { dailyMax := 0
      adequate := ds.adequate_hour_count
      inadequate := ds.inadequate_hour_count
      skipped := []
      hoursOut := [] }
  ({ ds with
      hours := acc.hoursOut
      max_indoor_temp := acc.dailyMax
      adequate_hour_count := acc.adequate
      inadequate_hour_count := acc.inadequate
      majority_adequate := decide (acc.adequate ≥ acc.inadequate) },
   acc.skipped)

/-- Source lines 163-166: the dataset summary percentage
`round(100*total_inadequate_hours/total_habitable_hours, 2)`.
Python raises `ZeroDivisionError` when `total_habitable_hours = 0`;
the fallible division is modelled by `Option`, with `none` standing for
the raised exception. -/
def summaryPercentage (totalInadequate totalHabitable : Nat) : Option ℚ :=
  if totalHabitable = 0 then none
  else some (round2 (100 * (totalInadequate : ℚ) / (totalHabitable : ℚ)))

/-- Source lines 102-166, `calculate_temp_data` after loading: finalize
every date bucket and accumulate the dataset totals, then compute the
summary percentage.  The input models `temps_per_day` as produced by the
load functions, whose `DateStats` values always carry zero counters
(dataclass defaults), so the per-date counter increments equal the final
per-date counters.  The source iterates dates in sorted order; the totals
are commutative sums, so list order is used here.  Returns
`(total_adequate_hours, total_inadequate_hours, percentage)` with `none`
for the `ZeroDivisionError` case. -/
def calculate_temp_data (extrapolate : Bool) (days : List (String × DateStats)) :
    Nat × Nat × Option ℚ :=
  let totals := days.foldl
    (fun t kv =>
      let r := (finalizeDate extrapolate kv.1 kv.2).1
      (t.1 + r.adequate_hour_count, t.2 + r.inadequate_hour_count))
    (0, 0)
  (totals.1, totals.2, summaryPercentage totals.2 (totals.1 + totals.2))

/-! Derived views of `stepHour`: its `stats`, `verdict` and `skipped`
outputs do not depend on the incoming daily maximum (proved below), so they
are functions of the bucket alone. -/

/-- The mutated `HourStats` produced by the loop body for one bucket. -/
def hourStatsOut (extrapolate : Bool) (hour : Nat) (hs : HourStats) : HourStats :=
  (stepHour extrapolate hour hs 0).stats

/-- The counter increment (`some true` adequate, `some false` inadequate,
`none` neither) produced by the loop body for one bucket. -/
def hourVerdict (extrapolate : Bool) (hour : Nat) (hs : HourStats) : Option Bool :=
  (stepHour extrapolate hour hs 0).verdict

/-- Whether the loop body runs the "no indoor temperature data" skip path
for one bucket. -/
def hourSkipped (extrapolate : Bool) (hour : Nat) (hs : HourStats) : Bool :=
  (stepHour extrapolate hour hs 0).skipped

/-- Number of adequate mandated hours counted over a list of buckets. -/
def aCount (extrapolate : Bool) (l : List (Nat × HourStats)) : Nat :=
  l.countP fun kv => hourVerdict extrapolate kv.1 kv.2 == some true

/-- Number of inadequate mandated hours counted over a list of buckets. -/
def iCount (extrapolate : Bool) (l : List (Nat × HourStats)) : Nat :=
  l.countP fun kv => hourVerdict extrapolate kv.1 kv.2 == some false

/-- Skip diagnostics printed over a list of buckets. -/
def skipDiags (extrapolate : Bool) (date : String) (l : List (Nat × HourStats)) : List String :=
  l.foldr
    (fun kv r => (if hourSkipped extrapolate kv.1 kv.2 then [skipDiagnostic date kv.1] else []) ++ r)
    []

/-- The mutated hour buckets produced over a list of buckets. -/
def finalizeHours (extrapolate : Bool) (l : List (Nat × HourStats)) : List (Nat × HourStats) :=
  l.map fun kv => (kv.1, hourStatsOut extrapolate kv.1 kv.2)

/-- The running `daily_max_indoor_temp` after the loop body has processed a
list of buckets starting from `dm`. -/
def dmFold (extrapolate : Bool) (l : List (Nat × HourStats)) (dm : ℚ) : ℚ :=
  l.foldl (fun d kv => (stepHour extrapolate kv.1 kv.2 d).dailyMax) dm

/-! Timezone Normalizer (`convert_utc_to_pt`, source lines 59-61).

Modelled from the spec: the conversion itself is performed by the external
`pytz` library, which is not part of this repository's sources.  Per the
spec (section 4.1) the Timezone Normalizer converts a UTC timestamp into
the civil-local (US/Pacific) timestamp, "applying the correct
standard/daylight offset for the date in question", and the conversion
preserves the instant (only the wall-clock representation changes).  An
instant is modelled as minutes since 1970-01-01 00:00 UTC; a zone-aware
Pacific datetime carries its wall-clock minutes together with the UTC
offset that produced them, exactly as a `pytz`-aware `datetime` does. -/

/-- Civil date `(year, month, day)` of a day count relative to 1970-01-01
(Gregorian calendar; Howard Hinnant's `civil_from_days` algorithm, with
divisions arranged so every division below acts on non-negative values). -/
def civilFromDays (z0 : ℤ) : ℤ × ℤ × ℤ :=
  let z := z0 + 719468
  let era := (if z ≥ 0 then z else z - 146096).ediv 146097
  let doe := z - era * 146097
  let yoe := (doe - doe.ediv 1460 + doe.ediv 36524 - doe.ediv 146096).ediv 365
  let y := yoe + era * 400
  let doy := doe - (365 * yoe + yoe.ediv 4 - yoe.ediv 100)
  let mp := (5 * doy + 2).ediv 153
  let d := doy - (153 * mp + 2).ediv 5 + 1
  let m := mp + (if mp < 10 then 3 else -9)
  (y + (if m ≤ 2 then 1 else 0), m, d)

/-- Day count relative to 1970-01-01 of a civil date (inverse of
`civilFromDays`; Hinnant's `days_from_civil`). -/
def daysFromCivil (y m d : ℤ) : ℤ :=
  let y1 := y - (if m ≤ 2 then 1 else 0)
  let era := (if y1 ≥ 0 then y1 else y1 - 399).ediv 400
  let yoe := y1 - era * 400
  let mp := (m + 9).emod 12
  let doy := (153 * mp + 2).ediv 5 + d - 1
  let doe := yoe * 365 + yoe.ediv 4 - yoe.ediv 100 + doy
  era * 146097 + doe - 719468

/-- Weekday of a day count, `0` = Sunday (1970-01-01 was a Thursday). -/
def weekday (z : ℤ) : ℤ := (z + 4).emod 7

/-- Day count of the second Sunday in March of the given year. -/
def secondSundayInMarch (y : ℤ) : ℤ :=
  let first := daysFromCivil y 3 1
  first + (7 - weekday first).emod 7 + 7

/-- Day count of the first Sunday in November of the given year. -/
def firstSundayInNovember (y : ℤ) : ℤ :=
  let first := daysFromCivil y 11 1
  first + (7 - weekday first).emod 7

/-- Whether US daylight-saving time is in effect for the given UTC instant
(post-2007 US rule: from the second Sunday in March at 10:00 UTC, i.e.
02:00 PST, to the first Sunday in November at 09:00 UTC, i.e. 02:00 PDT). -/
def isPacificDST (utcMinutes : ℤ) : Bool :=
  let y := (civilFromDays (utcMinutes.ediv 1440)).1
  let dstStart := secondSundayInMarch y * 1440 + 600
  let dstEnd := firstSundayInNovember y * 1440 + 540
  decide (dstStart ≤ utcMinutes ∧ utcMinutes < dstEnd)

/-- UTC offset, in minutes, of US/Pacific at the given UTC instant:
`-420` (PDT) during daylight-saving time, `-480` (PST) otherwise. -/
def pacificOffset (utcMinutes : ℤ) : ℤ :=
  if isPacificDST utcMinutes then -420 else -480

/-- A zone-aware Pacific datetime: wall-clock minutes plus the UTC offset
that produced them (what `datetime.astimezone(PACIFIC_TZ)` returns). -/
structure PTDateTime where
  wallMinutes : ℤ
  utcOffset : ℤ
deriving Repr, DecidableEq

/-- Source lines 59-61, `convert_utc_to_pt`: attach the UTC zone to the
instant and convert it to Pacific wall-clock time with the offset in
effect at that instant. -/
def convert_utc_to_pt (utcMinutes : ℤ) : PTDateTime :=
  { wallMinutes := utcMinutes + pacificOffset utcMinutes
    utcOffset := pacificOffset utcMinutes }

/-- Recover the UTC instant from a zone-aware Pacific datetime by applying
the inverse of its carried offset. -/
def PTDateTime.toUtcMinutes (d : PTDateTime) : ℤ :=
  d.wallMinutes - d.utcOffset

/-! Helper lemmas: branch behaviour of the hour-loop body. -/

/-- Unfolding of `assignVerdict`. -/
theorem assignVerdict_eq (hour : Nat) (hs : HourStats) (dm : ℚ) :
    assignVerdict hour hs dm =
      { stats := { hs with is_habitable_hour := is_heat_required hour }
        dailyMax := dm
        verdict := if is_heat_required hour then some (is_habitable_temp hs.avg_indoor_temp)
          else none
        skipped := false } := by
  simp [assignVerdict]

/-- With no outdoor readings the loop body leaves all statistics untouched
and goes straight to the verdict test. -/
theorem stepHour_noOutdoor (e : Bool) (hour : Nat) (hs : HourStats) (dm : ℚ)
    (hout : hs.outdoor_temps = []) :
    stepHour e hour hs dm = assignVerdict hour hs dm := by
  simp [stepHour, hout]

/-- With outdoor and indoor readings both present the loop body computes
the measured averages and updates the daily maximum. -/
theorem stepHour_measured (e : Bool) (hour : Nat) (hs : HourStats) (dm : ℚ)
    (hin : hs.indoor_temps ≠ []) (hout : hs.outdoor_temps ≠ []) :
    stepHour e hour hs dm =
      assignVerdict hour
        { hs with
            avg_outdoor_temp := round2 (mean hs.outdoor_temps)
            avg_indoor_temp := round2 (mean hs.indoor_temps)
            max_indoor_temp := round2 (listMax hs.indoor_temps) }
        (max dm (round2 (listMax hs.indoor_temps))) := by
  simp [stepHour, hin, hout]

/-- With outdoor readings only and extrapolation enabled the loop body
estimates the indoor average and updates the daily maximum with it. -/
theorem stepHour_extrapolated (hour : Nat) (hs : HourStats) (dm : ℚ)
    (hin : hs.indoor_temps = []) (hout : hs.outdoor_temps ≠ []) :
    stepHour true hour hs dm =
      assignVerdict hour
        { hs with
            avg_outdoor_temp := round2 (mean hs.outdoor_temps)
            avg_indoor_temp := round2 (mean hs.outdoor_temps) + INDOOR_OUTDOOR_DELTA }
        (max dm (round2 (mean hs.outdoor_temps) + INDOOR_OUTDOOR_DELTA)) := by
  simp [stepHour, hin, hout]

/-- With outdoor readings only and extrapolation disabled the loop body
takes the `continue` path: outdoor average set, everything else skipped. -/
theorem stepHour_skip (hour : Nat) (hs : HourStats) (dm : ℚ)
    (hin : hs.indoor_temps = []) (hout : hs.outdoor_temps ≠ []) :
    stepHour false hour hs dm =
      { stats := { hs with avg_outdoor_temp := round2 (mean hs.outdoor_temps) }
        dailyMax := dm
        verdict := none
        skipped := true } := by
  simp [stepHour, hin, hout]

/-- The `stats`, `verdict` and `skipped` outputs of the loop body do not
depend on the incoming daily maximum. -/
theorem stepHour_components (e : Bool) (hour : Nat) (hs : HourStats) (dm : ℚ) :
    (stepHour e hour hs dm).stats = hourStatsOut e hour hs ∧
    (stepHour e hour hs dm).verdict = hourVerdict e hour hs ∧
    (stepHour e hour hs dm).skipped = hourSkipped e hour hs := by
  unfold hourStatsOut hourVerdict hourSkipped
  by_cases hout : hs.outdoor_temps = []
  · simp [stepHour, assignVerdict, hout]
  · by_cases hin : hs.indoor_temps = []
    · cases e <;> simp [stepHour, assignVerdict, hout, hin]
    · simp [stepHour, assignVerdict, hout, hin]

/-- Re-running the loop body on an already-processed bucket behaves exactly
like running it on the raw bucket: the reading lists are never modified and
every computed field is recomputed from them. -/
theorem stepHour_stable (e : Bool) (hour : Nat) (hs : HourStats) (dm' dm : ℚ) :
    stepHour e hour (stepHour e hour hs dm').stats dm = stepHour e hour hs dm := by
  by_cases hout : hs.outdoor_temps = []
  · simp [stepHour, assignVerdict, hout]
  · by_cases hin : hs.indoor_temps = []
    · cases e <;> simp [stepHour, assignVerdict, hout, hin]
    · simp [stepHour, assignVerdict, hout, hin]

/-! Helper lemmas: the hours loop as a whole. -/

/-- Closed form of the hours loop: componentwise description of the
accumulator after processing a list of buckets. -/
theorem processDay_spec (e : Bool) (date : String) (l : List (Nat × HourStats)) (acc : DayAcc) :
    processDay e date l acc =
      { dailyMax := dmFold e l acc.dailyMax
        adequate := acc.adequate + aCount e l
        inadequate := acc.inadequate + iCount e l
        skipped := acc.skipped ++ skipDiags e date l
        hoursOut := acc.hoursOut ++ finalizeHours e l } := by
  induction l generalizing acc with
  | nil => simp [processDay, dmFold, aCount, iCount, skipDiags, finalizeHours]
  | cons kv l ih =>
    have hc := stepHour_components e kv.1 kv.2 acc.dailyMax
    have hstep : processDay e date (kv :: l) acc = processDay e date l (stepDay e date acc kv) :=
      rfl
    rw [hstep, ih]
    simp only [stepDay, dmFold, aCount, iCount, skipDiags, finalizeHours, List.countP_cons,
      List.map_cons, List.foldl_cons, List.foldr_cons, hc.1, hc.2.1, hc.2.2, beq_iff_eq,
      DayAcc.mk.injEq]
    repeat' apply And.intro
    all_goals first
      | rfl
      | trivial
      | (split_ifs <;> omega)
      | simp [List.append_assoc]

/-- Closed form of the body of the dates loop. -/
theorem finalizeDate_eq (e : Bool) (date : String) (ds : DateStats) :
    finalizeDate e date ds =
      ({ ds with
          hours := finalizeHours e (sortHours ds.hours)
          max_indoor_temp := dmFold e (sortHours ds.hours) 0
          adequate_hour_count := ds.adequate_hour_count + aCount e (sortHours ds.hours)
          inadequate_hour_count :=
            ds.inadequate_hour_count + iCount e (sortHours ds.hours)
          majority_adequate :=
            decide (ds.adequate_hour_count + aCount e (sortHours ds.hours) ≥
              ds.inadequate_hour_count + iCount e (sortHours ds.hours)) },
       skipDiags e date (sortHours ds.hours)) := by
  simp [finalizeDate, processDay_spec]

/-! Helper lemmas: stability under re-processing, sortedness, and bounds. -/

/-- The bucket statistics produced by the loop body are a fixed point of
the loop body. -/
theorem hourStatsOut_stable (e : Bool) (hour : Nat) (hs : HourStats) :
    hourStatsOut e hour (hourStatsOut e hour hs) = hourStatsOut e hour hs :=
  congrArg HourOutcome.stats (stepHour_stable e hour hs 0 0)

/-- Re-processing a processed bucket yields the same counter increment. -/
theorem hourVerdict_stable (e : Bool) (hour : Nat) (hs : HourStats) :
    hourVerdict e hour (hourStatsOut e hour hs) = hourVerdict e hour hs :=
  congrArg HourOutcome.verdict (stepHour_stable e hour hs 0 0)

/-- Re-processing the processed buckets of a day changes nothing. -/
theorem finalizeHours_stable (e : Bool) (l : List (Nat × HourStats)) :
    finalizeHours e (finalizeHours e l) = finalizeHours e l := by
  induction l with
  | nil => rfl
  | cons kv l ih => simp [finalizeHours, hourStatsOut_stable]

/-- Adequate-hour counts are unchanged by re-processing. -/
theorem aCount_stable (e : Bool) (l : List (Nat × HourStats)) :
    aCount e (finalizeHours e l) = aCount e l := by
  induction l with
  | nil => rfl
  | cons kv l ih =>
    simp [aCount, finalizeHours, List.countP_cons, hourVerdict_stable] at ih ⊢
    omega

/-- Inadequate-hour counts are unchanged by re-processing. -/
theorem iCount_stable (e : Bool) (l : List (Nat × HourStats)) :
    iCount e (finalizeHours e l) = iCount e l := by
  induction l with
  | nil => rfl
  | cons kv l ih =>
    simp [iCount, finalizeHours, List.countP_cons, hourVerdict_stable] at ih ⊢
    omega

/-- The daily maximum recomputed over re-processed buckets is unchanged. -/
theorem dmFold_stable (e : Bool) (l : List (Nat × HourStats)) :
    ∀ dm : ℚ, dmFold e (finalizeHours e l) dm = dmFold e l dm := by
  induction l with
  | nil => intro dm; rfl
  | cons kv l ih =>
    intro dm
    have h1 : stepHour e kv.1 (hourStatsOut e kv.1 kv.2) dm = stepHour e kv.1 kv.2 dm :=
      stepHour_stable e kv.1 kv.2 0 dm
    simp only [finalizeHours, List.map_cons, dmFold, List.foldl_cons, h1] at ih ⊢
    exact ih _

/-- The loop body never lowers the running daily maximum. -/
theorem le_stepHour_dailyMax (e : Bool) (hour : Nat) (hs : HourStats) (dm : ℚ) :
    dm ≤ (stepHour e hour hs dm).dailyMax := by
  by_cases hout : hs.outdoor_temps = []
  · simp [stepHour, assignVerdict, hout]
  · by_cases hin : hs.indoor_temps = []
    · cases e <;> simp [stepHour, assignVerdict, hout, hin, le_max_left]
    · simp [stepHour, assignVerdict, hout, hin, le_max_left]

/-- The hours loop never lowers the running daily maximum. -/
theorem le_dmFold (e : Bool) (l : List (Nat × HourStats)) :
    ∀ dm : ℚ, dm ≤ dmFold e l dm := by
  induction l with
  | nil => intro dm; exact le_refl dm
  | cons kv l ih =>
    intro dm
    exact le_trans (le_stepHour_dailyMax e kv.1 kv.2 dm) (ih _)

instance : DecidableRel (fun (a b : Nat × HourStats) => a.1 ≤ b.1) :=
  fun a b => inferInstanceAs (Decidable (a.1 ≤ b.1))

instance : IsTotal (Nat × HourStats) (fun a b => a.1 ≤ b.1) :=
  ⟨fun a b => Nat.le_total a.1 b.1⟩

instance : IsTrans (Nat × HourStats) (fun a b => a.1 ≤ b.1) :=
  ⟨fun _ _ _ hab hbc => Nat.le_trans hab hbc⟩

/-- Sorting the hour buckets yields a list sorted by hour key. -/
theorem sortHours_sorted (l : List (Nat × HourStats)) :
    List.Sorted (fun a b => a.1 ≤ b.1) (sortHours l) :=
  List.sorted_insertionSort _ l

/-- Sorting an already key-sorted list of hour buckets is the identity. -/
theorem sortHours_of_sorted {l : List (Nat × HourStats)}
    (h : List.Sorted (fun a b => a.1 ≤ b.1) l) : sortHours l = l :=
  h.insertionSort_eq

/-- Processing the buckets preserves their keys, hence their sortedness. -/
theorem finalizeHours_sorted (e : Bool) {l : List (Nat × HourStats)}
    (h : List.Sorted (fun a b => a.1 ≤ b.1) l) :
    List.Sorted (fun a b => a.1 ≤ b.1) (finalizeHours e l) :=
  List.Pairwise.map _ (fun _ _ hab => hab) h

/-! Claim theorems. -/

/-- C1: on a dataset with zero counted mandated hours
(`total_adequate_hours + total_inadequate_hours = 0`) the reporter does NOT
complete with a 0%/undefined report: the summary computation divides by the
zero total and raises `ZeroDivisionError` (modelled as `none`).  This
refutes the claim's description of the code and witnesses the divergence
from the spec's stated intent ("must report 0%/undefined rather than
raising"). -/
theorem c1_zero_mandated_hours_division :
    calculate_temp_data true [] = (0, 0, none) ∧ summaryPercentage 0 0 = none :=
  ⟨rfl, rfl⟩

/-- C7: for every finalized day, `majority_adequate` is exactly
`adequate_hour_count ≥ inadequate_hour_count` (so ties favor adequate),
and a day with no hour buckets finalizes to
`adequate_hour_count = inadequate_hour_count = 0` with
`majority_adequate = true`. -/
theorem c7_majority_adequate_rule (e : Bool) (date : String) (ds : DateStats) :
    ((finalizeDate e date ds).1.majority_adequate
        = decide ((finalizeDate e date ds).1.adequate_hour_count ≥
            (finalizeDate e date ds).1.inadequate_hour_count)) ∧
    (finalizeDate e date ({ } : DateStats)).1.adequate_hour_count = 0 ∧
    (finalizeDate e date ({ } : DateStats)).1.inadequate_hour_count = 0 ∧
    (finalizeDate e date ({ } : DateStats)).1.majority_adequate = true :=
  ⟨rfl, rfl, rfl, rfl⟩

/-- C8: converting a UTC instant to a zone-aware Pacific timestamp and
applying the inverse of the carried offset recovers the original instant:
the conversion preserves the instant and only changes the wall-clock
representation. -/
theorem c8_utc_pt_roundtrip (utcMinutes : ℤ) :
    (convert_utc_to_pt utcMinutes).toUtcMinutes = utcMinutes := by
  simp [convert_utc_to_pt, PTDateTime.toUtcMinutes]

/-- C9: a bucket with no outdoor readings keeps the dataclass defaults
`avg_indoor_temp = max_indoor_temp = avg_outdoor_temp = 0` even when indoor
readings are present, contributes nothing to the daily maximum, and — if
its hour is mandated — is counted Inadequate (0 < 68) regardless of the
measured indoor readings. -/
theorem c9_empty_outdoor_defaults (e : Bool) (hour : Nat) (hs : HourStats) (dm : ℚ)
    (hout : hs.outdoor_temps = []) (h1 : hs.avg_indoor_temp = 0)
    (h2 : hs.max_indoor_temp = 0) (h3 : hs.avg_outdoor_temp = 0) :
    (stepHour e hour hs dm).stats.avg_indoor_temp = 0 ∧
    (stepHour e hour hs dm).stats.max_indoor_temp = 0 ∧
    (stepHour e hour hs dm).stats.avg_outdoor_temp = 0 ∧
    (stepHour e hour hs dm).dailyMax = dm ∧
    (is_heat_required hour = true → (stepHour e hour hs dm).verdict = some false) := by
  rw [stepHour_noOutdoor e hour hs dm hout, assignVerdict_eq]
  refine ⟨h1, h2, h3, rfl, ?_⟩
  intro hreq
  rw [hreq, h1]
  norm_num [is_habitable_temp, HABITABLE_TEMP]

/-- C9 witness: bucket with indoor reading 70 but no outdoor readings, at
mandated hour 9: all statistics stay 0, the daily maximum is untouched and
the hour is counted Inadequate. -/
theorem c9_empty_outdoor_defaults_witness :
    ((⟨[70], [], 0, 0, 0, false⟩ : HourStats).outdoor_temps = [] ∧
      (stepHour true 9 ⟨[70], [], 0, 0, 0, false⟩ 0).stats.avg_indoor_temp = 0 ∧
      (stepHour true 9 ⟨[70], [], 0, 0, 0, false⟩ 0).stats.max_indoor_temp = 0 ∧
      (stepHour true 9 ⟨[70], [], 0, 0, 0, false⟩ 0).stats.avg_outdoor_temp = 0 ∧
      (stepHour true 9 ⟨[70], [], 0, 0, 0, false⟩ 0).dailyMax = 0 ∧
      (is_heat_required 9 = true →
        (stepHour true 9 ⟨[70], [], 0, 0, 0, false⟩ 0).verdict = some false)) ∧
    (stepHour true 9 ⟨[70], [], 0, 0, 0, false⟩ 0).verdict = some false := by
  have h := c9_empty_outdoor_defaults true 9 ⟨[70], [], 0, 0, 0, false⟩ 0 rfl rfl rfl rfl
  exact ⟨⟨rfl, h⟩, h.2.2.2.2 rfl⟩

/-- C10: every finalized day reports a non-negative `max_indoor_temp`: the
daily maximum is seeded at 0 and only ever updated through `max`. -/
theorem c10_max_indoor_temp_nonneg (e : Bool) (date : String) (ds : DateStats) :
    0 ≤ (finalizeDate e date ds).1.max_indoor_temp := by
  rw [finalizeDate_eq]
  exact le_dmFold e (sortHours ds.hours) 0

/-- C2 counterexample: the claim quantifies over every bucket with
non-empty `indoor_readings`, but the indoor-average computation is nested
inside `if hour_stats.outdoor_temps:`.  A bucket with indoor reading 72 and
no outdoor readings keeps `avg_indoor_temp = max_indoor_temp = 0` instead
of the claimed rounded mean 72 and rounded max 72. -/
theorem c2_counterexample :
    ¬((stepHour true 9 ⟨[72], [], 0, 0, 0, false⟩ 0).stats.avg_indoor_temp
        = round2 (mean [72]) ∧
      (stepHour true 9 ⟨[72], [], 0, 0, 0, false⟩ 0).stats.max_indoor_temp
        = round2 (listMax [72])) := by
  rintro ⟨h1, -⟩
  have h0 : (stepHour true 9 (⟨[72], [], 0, 0, 0, false⟩ : HourStats) 0).stats.avg_indoor_temp
      = 0 := rfl
  rw [h0] at h1
  have h72 : round2 (mean [72]) = 72 := by norm_num [round2, mean, pyRound]
  rw [h72] at h1
  exact absurd h1 (by norm_num)

/-- C2 (amended): for every hour bucket whose indoor readings AND outdoor
readings are both non-empty, finalization sets `avg_indoor_temp` to the
mean of the indoor readings rounded to 2 decimals and `max_indoor_temp` to
their maximum rounded to 2 decimals, and the verdict of a mandated hour
tests that rounded mean against the threshold. -/
theorem c2_measured_hour_averages (e : Bool) (hour : Nat) (hs : HourStats) (dm : ℚ)
    (hin : hs.indoor_temps ≠ []) (hout : hs.outdoor_temps ≠ []) :
    (stepHour e hour hs dm).stats.avg_indoor_temp = round2 (mean hs.indoor_temps) ∧
    (stepHour e hour hs dm).stats.max_indoor_temp = round2 (listMax hs.indoor_temps) ∧
    (stepHour e hour hs dm).verdict =
      (if is_heat_required hour then some (is_habitable_temp (round2 (mean hs.indoor_temps)))
       else none) := by
  rw [stepHour_measured e hour hs dm hin hout, assignVerdict_eq]
  exact ⟨rfl, rfl, rfl⟩

/-- C2 witness: the spec scenario — indoor readings `[70, 72]`, outdoor
readings `[55]`, mandated hour 9 — gives `avg_indoor_temp = 71`,
`max_indoor_temp = 72` and an Adequate verdict. -/
theorem c2_measured_hour_averages_witness :
    (stepHour true 9 ⟨[70, 72], [55], 0, 0, 0, false⟩ 0).stats.avg_indoor_temp = 71 ∧
    (stepHour true 9 ⟨[70, 72], [55], 0, 0, 0, false⟩ 0).stats.max_indoor_temp = 72 ∧
    (stepHour true 9 ⟨[70, 72], [55], 0, 0, 0, false⟩ 0).verdict = some true := by
  have h := c2_measured_hour_averages true 9 ⟨[70, 72], [55], 0, 0, 0, false⟩ 0
    (by simp) (by simp)
  refine ⟨h.1.trans (by norm_num [round2, mean, pyRound]),
    h.2.1.trans (by norm_num [round2, listMax, pyRound]),
    h.2.2.trans ?_⟩
  norm_num [is_heat_required, HABITABLE_HEAT_HOURS, is_habitable_temp, HABITABLE_TEMP,
    round2, mean, pyRound]

/-- C3 counterexample: the claim says a verdict is computed only for
mandated hours with a RESOLVED `avg_indoor_temp` (measured or
extrapolated).  A bucket with indoor reading 70 but no outdoor readings
resolves nothing (`avg_indoor_temp` stays at the default 0), yet mandated
hour 10 is still counted — as Inadequate. -/
theorem c3_counterexample :
    (stepHour true 10 ⟨[70], [], 0, 0, 0, false⟩ 0).verdict = some false ∧
    (stepHour true 10 ⟨[70], [], 0, 0, 0, false⟩ 0).stats.avg_indoor_temp = 0 ∧
    (stepHour true 10 ⟨[70], [], 0, 0, 0, false⟩ 0).stats.avg_indoor_temp
      ≠ round2 (mean [70]) := by
  refine ⟨?_, rfl, ?_⟩
  · rw [stepHour_noOutdoor true 10 ⟨[70], [], 0, 0, 0, false⟩ 0 rfl, assignVerdict_eq]
    norm_num [is_heat_required, HABITABLE_HEAT_HOURS, is_habitable_temp, HABITABLE_TEMP]
  · have h0 : (stepHour true 10 (⟨[70], [], 0, 0, 0, false⟩ : HourStats) 0).stats.avg_indoor_temp
        = 0 := rfl
    rw [h0]
    norm_num [round2, mean, pyRound]

/-- C3 (amended): a bucket produces a verdict (and increments the day and
dataset counters) iff its hour is mandated and it is not skipped by the
disabled-extrapolation path (outdoor data present, indoor data absent,
extrapolation off); a resolved `avg_indoor_temp` is NOT required — a
mandated bucket with no outdoor readings is counted against the default
`avg_indoor_temp = 0` (hence Inadequate) even when indoor readings exist.
Such a bucket never affects the daily maximum, so an hour with no readings
at all (which the loaders never create, since buckets are created by
appending a reading) would leave `max_indoor_temp` untouched. -/
theorem c3_verdict_scope (e : Bool) (hour : Nat) (hs : HourStats) (dm : ℚ) :
    ((stepHour e hour hs dm).verdict ≠ none ↔
      (is_heat_required hour = true ∧
        ¬(hs.outdoor_temps ≠ [] ∧ hs.indoor_temps = [] ∧ e = false))) ∧
    (hs.outdoor_temps = [] → (stepHour e hour hs dm).dailyMax = dm) := by
  constructor
  · by_cases hout : hs.outdoor_temps = []
    · rw [stepHour_noOutdoor e hour hs dm hout, assignVerdict_eq]
      by_cases hreq : is_heat_required hour <;> simp [hreq, hout]
    · by_cases hin : hs.indoor_temps = []
      · cases e with
        | false => rw [stepHour_skip hour hs dm hin hout]; simp [hin, hout]
        | true =>
          rw [stepHour_extrapolated hour hs dm hin hout, assignVerdict_eq]
          by_cases hreq : is_heat_required hour <;> simp [hreq, hin, hout]
      · rw [stepHour_measured e hour hs dm hin hout, assignVerdict_eq]
        by_cases hreq : is_heat_required hour <;> simp [hreq, hin, hout]
  · intro hout
    rw [stepHour_noOutdoor e hour hs dm hout, assignVerdict_eq]

/-- C3 witness: the default (empty) bucket at mandated hour 9 with
extrapolation on: it produces a verdict (both sides of the iff hold) and
leaves the daily maximum unchanged. -/
theorem c3_verdict_scope_witness :
    ((stepHour true 9 ({ } : HourStats) 0).verdict ≠ none ↔
      (is_heat_required 9 = true ∧
        ¬(({ } : HourStats).outdoor_temps ≠ [] ∧ ({ } : HourStats).indoor_temps = [] ∧
          true = false))) ∧
    (({ } : HourStats).outdoor_temps = [] → (stepHour true 9 ({ } : HourStats) 0).dailyMax = 0) :=
  c3_verdict_scope true 9 ({ } : HourStats) 0

/-- C5: with extrapolation enabled, a bucket with outdoor readings but no
indoor readings gets `avg_indoor_temp = avg_outdoor_temp +
INDOOR_OUTDOOR_DELTA`, and this estimate feeds the daily-maximum update
and the mandated-hour verdict exactly as a measured average would. -/
theorem c5_extrapolation_policy (hour : Nat) (hs : HourStats) (dm : ℚ)
    (hin : hs.indoor_temps = []) (hout : hs.outdoor_temps ≠ []) :
    (stepHour true hour hs dm).stats.avg_indoor_temp
        = (stepHour true hour hs dm).stats.avg_outdoor_temp + INDOOR_OUTDOOR_DELTA ∧
    (stepHour true hour hs dm).stats.avg_outdoor_temp = round2 (mean hs.outdoor_temps) ∧
    (stepHour true hour hs dm).dailyMax
        = max dm ((stepHour true hour hs dm).stats.avg_indoor_temp) ∧
    (stepHour true hour hs dm).verdict
        = (if is_heat_required hour
            then some (is_habitable_temp ((stepHour true hour hs dm).stats.avg_indoor_temp))
            else none) := by
  rw [stepHour_extrapolated hour hs dm hin hout, assignVerdict_eq]
  exact ⟨rfl, rfl, rfl, rfl⟩

/-- C5 witness: the spec scenario — no indoor readings, outdoor average
50, delta 10, mandated hour 6 — gives `avg_indoor_temp = 60` and an
Inadequate verdict (60 < 68). -/
theorem c5_extrapolation_policy_witness :
    ((stepHour true 6 ⟨[], [50], 0, 0, 0, false⟩ 0).stats.avg_indoor_temp
        = (stepHour true 6 ⟨[], [50], 0, 0, 0, false⟩ 0).stats.avg_outdoor_temp +
            INDOOR_OUTDOOR_DELTA) ∧
    (stepHour true 6 ⟨[], [50], 0, 0, 0, false⟩ 0).stats.avg_indoor_temp = 60 ∧
    (stepHour true 6 ⟨[], [50], 0, 0, 0, false⟩ 0).verdict = some false := by
  have h := c5_extrapolation_policy 6 ⟨[], [50], 0, 0, 0, false⟩ 0 rfl (by simp)
  have havg : (stepHour true 6 (⟨[], [50], 0, 0, 0, false⟩ : HourStats) 0).stats.avg_indoor_temp
      = 60 := by
    rw [h.1, h.2.1]
    norm_num [round2, mean, pyRound, INDOOR_OUTDOOR_DELTA]
  refine ⟨h.1, havg, ?_⟩
  rw [h.2.2.2, havg]
  norm_num [is_heat_required, HABITABLE_HEAT_HOURS, is_habitable_temp, HABITABLE_TEMP]

/-- C6: with extrapolation disabled, a bucket with outdoor readings but no
indoor readings is excluded entirely: no verdict, counters and daily
maximum unchanged, and a skip diagnostic naming the date and hour is
emitted; only its `avg_outdoor_temp` is filled in. -/
theorem c6_skip_policy (date : String) (acc : DayAcc) (hour : Nat) (hs : HourStats)
    (hin : hs.indoor_temps = []) (hout : hs.outdoor_temps ≠ []) :
    stepDay false date acc (hour, hs) =
      { acc with
          hoursOut := acc.hoursOut ++
            [(hour, { hs with avg_outdoor_temp := round2 (mean hs.outdoor_temps) })]
          skipped := acc.skipped ++ [skipDiagnostic date hour] } := by
  simp [stepDay, stepHour_skip hour hs acc.dailyMax hin hout]

/-- C6 witness: the spec scenario with extrapolation off — outdoor average
50, no indoor data, hour 6 on 2020-01-15 — leaves the counters and daily
maximum unchanged and appends the skip diagnostic for that date and hour. -/
theorem c6_skip_policy_witness :
    stepDay false "2020-01-15" ⟨0, 0, 0, [], []⟩ (6, ⟨[], [50], 0, 0, 0, false⟩) =
      { (⟨0, 0, 0, [], []⟩ : DayAcc) with
          hoursOut := [] ++ [(6, { (⟨[], [50], 0, 0, 0, false⟩ : HourStats) with
            avg_outdoor_temp := round2 (mean [50]) })]
          skipped := [] ++ [skipDiagnostic "2020-01-15" 6] } :=
  c6_skip_policy "2020-01-15" ⟨0, 0, 0, [], []⟩ 6 ⟨[], [50], 0, 0, 0, false⟩ rfl (by simp)

/-- C4 counterexample: running the finalize step a second time does NOT
produce the same aggregates — the adequate/inadequate counters are
incremented again on top of their previous values (the code never resets
them).  One adequate mandated hour (indoor 70, outdoor 55 at hour 9)
yields `adequate_hour_count = 1` after one finalize and `2` after two. -/
theorem c4_counterexample :
    (finalizeDate true "2020-01-15"
        (finalizeDate true "2020-01-15"
          ({ hours := [(9, { indoor_temps := [70], outdoor_temps := [55] })] } : DateStats)).1).1
      ≠ (finalizeDate true "2020-01-15"
          ({ hours := [(9, { indoor_temps := [70], outdoor_temps := [55] })] } : DateStats)).1 := by
  have hv : hourVerdict true 9 ({ indoor_temps := [70], outdoor_temps := [55] } : HourStats)
      = some true := by
    unfold hourVerdict
    rw [stepHour_measured true 9 _ 0 (by simp) (by simp), assignVerdict_eq]
    norm_num [is_heat_required, HABITABLE_HEAT_HOURS, is_habitable_temp, HABITABLE_TEMP,
      round2, mean, pyRound]
  have honce : (finalizeDate true "2020-01-15"
      ({ hours := [(9, { indoor_temps := [70], outdoor_temps := [55] })] } : DateStats)).1.adequate_hour_count
      = 1 := by
    simp only [finalizeDate_eq]
    simp [sortHours, aCount, List.countP_cons, List.countP_nil, hv]
  have htwice : (finalizeDate true "2020-01-15"
      (finalizeDate true "2020-01-15"
        ({ hours := [(9, { indoor_temps := [70], outdoor_temps := [55] })] } : DateStats)).1).1.adequate_hour_count
      = 2 := by
    simp only [finalizeDate_eq]
    simp [sortHours, aCount, finalizeHours, List.countP_cons, List.countP_nil,
      hourVerdict_stable, hv]
  intro h
  rw [congrArg DateStats.adequate_hour_count h, honce] at htwice
  exact absurd htwice (by decide)

/-- C4 (amended): re-running finalization on an already-finalized day (one
whose counters started at the dataclass default 0) reproduces the hour
buckets, the daily `max_indoor_temp` and `majority_adequate` unchanged,
but doubles the adequate/inadequate counters; full idempotence holds only
for the recomputed aggregates, not for the accumulated counters.
Re-running the whole pipeline from the raw readings is deterministic and
does yield identical output. -/
theorem c4_refinalize (e : Bool) (date : String) (ds : DateStats)
    (ha : ds.adequate_hour_count = 0) (hi : ds.inadequate_hour_count = 0) :
    (finalizeDate e date (finalizeDate e date ds).1).1.hours
        = (finalizeDate e date ds).1.hours ∧
    (finalizeDate e date (finalizeDate e date ds).1).1.max_indoor_temp
        = (finalizeDate e date ds).1.max_indoor_temp ∧
    (finalizeDate e date (finalizeDate e date ds).1).1.majority_adequate
        = (finalizeDate e date ds).1.majority_adequate ∧
    (finalizeDate e date (finalizeDate e date ds).1).1.adequate_hour_count
        = 2 * (finalizeDate e date ds).1.adequate_hour_count ∧
    (finalizeDate e date (finalizeDate e date ds).1).1.inadequate_hour_count
        = 2 * (finalizeDate e date ds).1.inadequate_hour_count := by
  have hsorted : List.Sorted (fun a b => a.1 ≤ b.1) (finalizeHours e (sortHours ds.hours)) :=
    finalizeHours_sorted e (sortHours_sorted ds.hours)
  simp only [finalizeDate_eq, sortHours_of_sorted hsorted, finalizeHours_stable,
    aCount_stable, iCount_stable, dmFold_stable, ha, hi]
  repeat' apply And.intro
  all_goals first
    | trivial
    | omega
    | (exact decide_eq_decide.mpr (by omega))

/-- C4 witness: a day with one adequate mandated hour (indoor 69, outdoor
55 at hour 16), counters initially 0: a second finalize keeps the hour
buckets, daily maximum and majority verdict, and doubles the counters. -/
theorem c4_refinalize_witness :
    (finalizeDate true "2020-02-01"
        (finalizeDate true "2020-02-01"
          ({ hours := [(16, { indoor_temps := [69], outdoor_temps := [55] })] } : DateStats)).1).1.hours
        = (finalizeDate true "2020-02-01"
            ({ hours := [(16, { indoor_temps := [69], outdoor_temps := [55] })] } : DateStats)).1.hours ∧
    (finalizeDate true "2020-02-01"
        (finalizeDate true "2020-02-01"
          ({ hours := [(16, { indoor_temps := [69], outdoor_temps := [55] })] } : DateStats)).1).1.max_indoor_temp
        = (finalizeDate true "2020-02-01"
            ({ hours := [(16, { indoor_temps := [69], outdoor_temps := [55] })] } : DateStats)).1.max_indoor_temp ∧
    (finalizeDate true "2020-02-01"
        (finalizeDate true "2020-02-01"
          ({ hours := [(16, { indoor_temps := [69], outdoor_temps := [55] })] } : DateStats)).1).1.majority_adequate
        = (finalizeDate true "2020-02-01"
            ({ hours := [(16, { indoor_temps := [69], outdoor_temps := [55] })] } : DateStats)).1.majority_adequate ∧
    (finalizeDate true "2020-02-01"
        (finalizeDate true "2020-02-01"
          ({ hours := [(16, { indoor_temps := [69], outdoor_temps := [55] })] } : DateStats)).1).1.adequate_hour_count
        = 2 * (finalizeDate true "2020-02-01"
            ({ hours := [(16, { indoor_temps := [69], outdoor_temps := [55] })] } : DateStats)).1.adequate_hour_count ∧
    (finalizeDate true "2020-02-01"
        (finalizeDate true "2020-02-01"
          ({ hours := [(16, { indoor_temps := [69], outdoor_temps := [55] })] } : DateStats)).1).1.inadequate_hour_count
        = 2 * (finalizeDate true "2020-02-01"
            ({ hours := [(16, { indoor_temps := [69], outdoor_temps := [55] })] } : DateStats)).1.inadequate_hour_count :=
  c4_refinalize true "2020-02-01"
    ({ hours := [(16, { indoor_temps := [69], outdoor_temps := [55] })] } : DateStats) rfl rfl

end NormalizeTemps
